import Mathlib

/-!
Verification of takram-math (header-only C++ geometry library) against its
natural-language specification.  The C++ templates are shallowly embedded:
generic scalar parameters `T` become `ℚ` (exact arithmetic) except where the
source computes a square root, where `ℝ` is used; the compile-time promotion
metafunctions become functions on an inductive type of scalar kinds; a
`assert(...)` in the source becomes the `none` branch of an `Option`-valued
debug-build model, while the release-build model omits the check exactly as
`NDEBUG` compiles it out.
-/

/-- The C++ scalar kinds the library's promotion rules are applied to
(each integral or floating, per `std::is_integral` / `std::is_floating_point`). -/
inductive ScalarKind where
  | bool
  | char
  | short
  | int
  | long
  | longLong
  | uint
  | float
  | double
  | longDouble
deriving DecidableEq, Repr, Fintype

/-- `std::is_integral<T>::value` restricted to the embedded kinds. -/
def ScalarKind.isIntegral : ScalarKind → Bool
  | .bool | .char | .short | .int | .long | .longLong | .uint => true
  | .float | .double | .longDouble => false

/-- `std::is_floating_point<T>::value` restricted to the embedded kinds. -/
def ScalarKind.isFloating : ScalarKind → Bool
  | .float | .double | .longDouble => true
  | _ => false

/-- Embedding of `takram::math::Promotion1<T>::Type` (promotion.h, lines 36-51):
the generic template maps integral kinds to `double` and leaves the kind
unchanged otherwise; the four explicit specializations (`float`, `double`,
`long double`, `int`) agree with the generic rule. -/
def Promotion1 (t : ScalarKind) : ScalarKind :=
  if t.isIntegral then .double else t

/-- Embedding of `takram::math::Promotion2<T, U>::Type` (promotion.h, lines
55-81): first promote each argument with `Promotion1`; if both promoted kinds
are floating, `long double` wins, then `double`, else `float`; the non-floating
fallback branch keeps the source's conditional shape (`std::is_convertible`
holds between any two arithmetic kinds, so it is the constant `true` here).
The sixteen explicit pair specializations in the source agree with this
generic rule. -/
def Promotion2 (t u : ScalarKind) : ScalarKind :=
  let promotedT := Promotion1 t
  let promotedU := Promotion1 u
  if promotedT.isFloating ∧ promotedU.isFloating then
    if promotedT = .longDouble ∨ promotedU = .longDouble then
      .longDouble
    else if promotedT = .double ∨ promotedU = .double then
      .double
    else
      .float
  else
    if ¬promotedU.isFloating ∧ True then promotedU else promotedT

/-- Embedding of `takram::math::Promote<T, U>` (promotion.h, line 118). -/
def Promote (t u : ScalarKind) : ScalarKind :=
  Promotion2 t u

/-- Embedding of `takram::math::Vec<T, 2>` (vector2.h): two scalar fields.
The scalar parameter `α` stands for the C++ template parameter `T`. -/
structure Vec2 (α : Type) where
  x : α
  y : α
deriving DecidableEq, Repr

/-- `operator+(const Vec2<T>&, const Vec2<U>&)` (vector2.h, lines 639-643):
componentwise sum in the promoted type. -/
def Vec2.add {α : Type} [Add α] (lhs rhs : Vec2 α) : Vec2 α :=
  ⟨lhs.x + rhs.x, lhs.y + rhs.y⟩

/-- `operator-(const Vec2<T>&, const Vec2<U>&)` (vector2.h, lines 645-649):
componentwise difference in the promoted type. -/
def Vec2.sub {α : Type} [Sub α] (lhs rhs : Vec2 α) : Vec2 α :=
  ⟨lhs.x - rhs.x, lhs.y - rhs.y⟩

/-- `operator*(const Vec2<T>&, U scalar)` (vector2.h): each component scaled. -/
def Vec2.smul {α : Type} [Mul α] (lhs : Vec2 α) (rhs : α) : Vec2 α :=
  ⟨lhs.x * rhs, lhs.y * rhs⟩

/-- `Vec<T, 2>::magnitudeSquared` (vector2.h, lines 763-766): `x * x + y * y`
computed in the promoted type. -/
def Vec2.magnitudeSquared {α : Type} [Mul α] [Add α] (v : Vec2 α) : α :=
  v.x * v.x + v.y * v.y

/-- `Vec<T, 2>::distanceSquared` (vector2.h, lines 823-826):
`(*this - other).magnitudeSquared()`. -/
def Vec2.distanceSquared {α : Type} [Sub α] [Mul α] [Add α]
    (v other : Vec2 α) : α :=
  (v.sub other).magnitudeSquared

/-- `Vec<T, 2>::magnitude` (vector2.h, lines 758-761):
`std::sqrt(magnitudeSquared())`, idealized over the reals. -/
noncomputable def Vec2.magnitude (v : Vec2 ℝ) : ℝ :=
  Real.sqrt v.magnitudeSquared

/-- `Vec<T, 2>::operator/=(T scalar)` (vector2.h, lines 687-692): componentwise
division, no zero check in the source. -/
def Vec2.divScalar {α : Type} [Div α] (v : Vec2 α) (scalar : α) : Vec2 α :=
  ⟨v.x / scalar, v.y / scalar⟩

/-- `Vec<T, 2>::normalize` (vector2.h, lines 787-793): divide by the magnitude
unless the magnitude is zero, in which case the vector is left unchanged
(`if (denominator)` guards the division). -/
noncomputable def Vec2.normalize (v : Vec2 ℝ) : Vec2 ℝ :=
  let denominator := v.magnitude
  if denominator ≠ 0 then v.divScalar denominator else v

/-- `Vec<T, 2>::normalized` (vector2.h, lines 796-798): normalize a copy cast
to the promoted type (the cast is the identity over ℝ). -/
noncomputable def Vec2.normalized (v : Vec2 ℝ) : Vec2 ℝ :=
  v.normalize

/-- Debug-build model of `Vec<T, 2>::at(int)` (vector2.h, lines 531-540):
`switch` on the index; the `default` branch hits `assert(false)`, modelled as
`none`. -/
def Vec2.atDebug {α : Type} (v : Vec2 α) (index : Int) : Option α :=
  if index = 0 then some v.x
  else if index = 1 then some v.y
  else none

/-- Release-build model of `Vec<T, 2>::at(int)` (vector2.h, lines 531-540):
with `NDEBUG` the assert is a no-op and control falls through to `return x`. -/
def Vec2.atRelease {α : Type} (v : Vec2 α) (index : Int) : α :=
  if index = 0 then v.x
  else if index = 1 then v.y
  else v.x

/-- Debug-build model of `Vec<T, 2>::operator/=(const Vec&)` (vector2.h, lines
627-632): `x /= other.x; y /= other.y;` — the source contains no assertion, so
the debug model never returns `none`. -/
def Vec2.divAssignVecDebug (v other : Vec2 ℚ) : Option (Vec2 ℚ) :=
  some ⟨v.x / other.x, v.y / other.y⟩

/-- Debug-build model of `Vec<T, 2>::operator/=(T scalar)` (vector2.h, lines
687-692): `x /= scalar; y /= scalar;` — no assertion in the source, so the
debug model never returns `none`. -/
def Vec2.divAssignScalarDebug (v : Vec2 ℚ) (scalar : ℚ) : Option (Vec2 ℚ) :=
  some ⟨v.x / scalar, v.y / scalar⟩

/-- Embedding of `takram::math::Side` (side.h, lines 37-41). -/
inductive Side where
  | COINCIDENT
  | LEFT
  | RIGHT
deriving DecidableEq, Repr

/-- Embedding of `takram::math::Line<T, 2>` (line2.h): two endpoints. -/
structure Line2 where
  a : Vec2 ℚ
  b : Vec2 ℚ
deriving DecidableEq, Repr

/-- `Line<T, 2>::side` (line2.h, lines 345-350): computes the 2-D cross
product `d` of `b - a` with `point - a`; the source then evaluates
`!d ? (d < 0 ? LEFT : RIGHT) : COINCIDENT`, i.e. it enters the sign test only
when `d` is zero and returns `COINCIDENT` whenever `d` is nonzero. -/
def Line2.side (l : Line2) (point : Vec2 ℚ) : Side :=
  let d := (l.b.x - l.a.x) * (point.y - l.a.y) -
           (l.b.y - l.a.y) * (point.x - l.a.x)
  if d = 0 then (if d < 0 then .LEFT else .RIGHT) else .COINCIDENT

/-- `Line<T, 2>::intersect` (line2.h, lines 308-324): solve the 2x2 parametric
system; report no intersection when the denominator is zero or a parameter
leaves [0, 1], otherwise return `a + (b - a) * s`. -/
def Line2.intersect (l other : Line2) : Bool × Vec2 ℚ :=
  let denominator := (other.b.y - other.a.y) * (l.b.x - l.a.x) -
                     (other.b.x - other.a.x) * (l.b.y - l.a.y)
  if denominator ≠ 0 then
    let s := ((other.b.x - other.a.x) * (l.a.y - other.a.y) -
              (other.b.y - other.a.y) * (l.a.x - other.a.x)) / denominator
    let t := ((l.b.x - l.a.x) * (l.a.y - other.a.y) -
              (l.b.y - l.a.y) * (l.a.x - other.a.x)) / denominator
    if 0 ≤ s ∧ s ≤ 1 ∧ 0 ≤ t ∧ t ≤ 1 then
      (true, l.a.add ((l.b.sub l.a).smul s))
    else
      (false, ⟨0, 0⟩)
  else
    (false, ⟨0, 0⟩)

/-- Debug-build model of `Line<T, 2>::at(int)` (line2.h, lines 235-244):
`switch` on the index; the `default` branch hits `assert(false)`. -/
def Line2.atDebug (l : Line2) (index : Int) : Option (Vec2 ℚ) :=
  if index = 0 then some l.a
  else if index = 1 then some l.b
  else none

/-- Release-build model of `Line<T, 2>::at(int)` (line2.h, lines 235-244):
with `NDEBUG` the assert is a no-op and control falls through to `return a`. -/
def Line2.atRelease (l : Line2) (index : Int) : Vec2 ℚ :=
  if index = 0 then l.a
  else if index = 1 then l.b
  else l.a

/-- Embedding of `takram::math::Rect<T, 2>` (rectangle2.h): an origin and a
size, stored as the four scalars `x`, `y`, `width`, `height`.  `Rect<T>` in
rect.h has the same fields and a textually identical `canonicalize`, so this
one embedding covers both. -/
structure Rect where
  x : ℚ
  y : ℚ
  width : ℚ
  height : ℚ
deriving DecidableEq, Repr

/-- `Rect<T, 2>::canonicalize` (rectangle2.h, lines 558-568) and
`Rect<T>::canonicalize` (rect.h, lines 480-491): fold a negative width or
height into the origin and negate it. -/
def Rect.canonicalize (r : Rect) : Rect :=
  let r₁ := if r.width < 0 then
    { r with x := r.x + r.width, width := -r.width }
  else r
  if r₁.height < 0 then
    { r₁ with y := r₁.y + r₁.height, height := -r₁.height }
  else r₁

/-- Embedding of `takram::math::Circle2<T>` (circle2.h): center and radius. -/
structure Circle2 where
  center : Vec2 ℚ
  radius : ℚ
deriving DecidableEq, Repr

/-- `Circle2<T>::contains` (circle2.h, lines 228-232):
`center.distanceSquared(point) <= radius * radius`. -/
def Circle2.contains (c : Circle2) (point : Vec2 ℚ) : Bool :=
  c.center.distanceSquared point ≤ c.radius * c.radius

/-- Modelled from the spec: the state of `std::mt19937`
(`DefaultRandomEngine` in random.h, line 43; the engine itself lives in the
C++ standard library, not in this repository) — 624 32-bit words plus a read
index, per the spec's "32-bit Mersenne-Twister-equivalent engine". -/
structure MTState where
  words : Array Nat
  index : Nat
deriving DecidableEq, Repr

/-- Modelled from the spec: `std::mt19937` seeding — `mt[0] = value mod 2^32`,
`mt[i] = (1812433253 * (mt[i-1] xor (mt[i-1] >> 30)) + i) mod 2^32`, and the
read index starts exhausted so the first output twists the state. -/
def mtSeed (value : Nat) : MTState :=
  let words := (List.range 623).foldl
    (fun acc i =>
      let prev := acc.getD i 0
      acc.push ((1812433253 * (prev ^^^ (prev >>> 30)) + (i + 1)) % 2 ^ 32))
    #[value % 2 ^ 32]
  ⟨words, 624⟩

/-- Modelled from the spec: the Mersenne-Twister twist step — each word is
recombined from the top bit of `mt[i]`, the low bits of `mt[i+1]`, and
`mt[i+397]`, conditionally xoring the matrix constant on odd values. -/
def mtTwist (words : Array Nat) : Array Nat :=
  (List.range 624).foldl
    (fun acc i =>
      let x := (acc.getD i 0 &&& 0x80000000) |||
               (acc.getD ((i + 1) % 624) 0 &&& 0x7fffffff)
      let xA := if x % 2 = 1 then (x >>> 1) ^^^ 0x9908b0df else x >>> 1
      acc.setD i ((acc.getD ((i + 397) % 624) 0) ^^^ xA))
    words

/-- Modelled from the spec: one `std::mt19937` output — twist when the index
is exhausted, then temper the current word with the standard shift/mask
constants. -/
def mtNext (s : MTState) : Nat × MTState :=
  let s := if s.index ≥ 624 then ⟨mtTwist s.words, 0⟩ else s
  let y₀ := s.words.getD s.index 0
  let y₁ := y₀ ^^^ (y₀ >>> 11)
  let y₂ := y₁ ^^^ ((y₁ <<< 7) &&& 0x9d2c5680)
  let y₃ := y₂ ^^^ ((y₂ <<< 15) &&& 0xefc60000)
  let y₄ := y₃ ^^^ (y₃ >>> 18)
  (y₄ % 2 ^ 32, ⟨s.words, s.index + 1⟩)

/-- Embedding of `takram::math::Random<Engine>` (random.h; named `MathRandom`
here because Mathlib already declares `Random`): the only non-static member is
the engine state `engine_`. -/
structure MathRandom where
  engine : MTState
deriving DecidableEq, Repr

/-- `Random<Engine>::seed` (random.h, lines 159-162): `engine_.seed(value)` —
the engine state is re-initialized wholly from `value`, independent of the
previous state. -/
def MathRandom.seed (_ : MathRandom) (value : Nat) : MathRandom :=
  ⟨mtSeed value⟩

/-- `Random<Engine>::next` (random.h, lines 169-172): `engine_()` — one raw
engine output, advancing the engine state. -/
def MathRandom.next (r : MathRandom) : Nat × MathRandom :=
  let (out, engine) := mtNext r.engine
  (out, ⟨engine⟩)

/-- The list of outputs of `count` successive `next()` calls. -/
def MathRandom.nextOutputs : Nat → MathRandom → List Nat
  | 0, _ => []
  | count + 1, r =>
    let (out, r₁) := r.next
    out :: MathRandom.nextOutputs count r₁

/-- The denominator of the 2x2 parametric system solved by
`Line<T, 2>::intersect` (line2.h, lines 310-311). -/
def Line2.intersectDenominator (l other : Line2) : ℚ :=
  (other.b.y - other.a.y) * (l.b.x - l.a.x) -
  (other.b.x - other.a.x) * (l.b.y - l.a.y)

/-- The parameter `s` solved by `Line<T, 2>::intersect` (line2.h,
lines 313-314). -/
def Line2.intersectParamS (l other : Line2) : ℚ :=
  ((other.b.x - other.a.x) * (l.a.y - other.a.y) -
   (other.b.y - other.a.y) * (l.a.x - other.a.x)) /
    Line2.intersectDenominator l other

/-- The parameter `t` solved by `Line<T, 2>::intersect` (line2.h,
lines 315-316). -/
def Line2.intersectParamT (l other : Line2) : ℚ :=
  ((l.b.x - l.a.x) * (l.a.y - other.a.y) -
   (l.b.y - l.a.y) * (l.a.x - other.a.x)) /
    Line2.intersectDenominator l other

/-- C1: for the line a=(0,0), b=(1,0), the source's `Line2::side` classifies
both (0,1) and (0,-1) as COINCIDENT (their cross products are nonzero), and a
point with zero cross product, (5,0), as RIGHT — the `!d` condition in the
source inverts the intended coincident test, so the claimed LEFT/RIGHT
opposite-side classification and the COINCIDENT-on-zero-distance behaviour
both fail on the code. -/
theorem line2_side_code_divergence :
    Line2.side ⟨⟨0, 0⟩, ⟨1, 0⟩⟩ ⟨0, 1⟩ = Side.COINCIDENT ∧
    Line2.side ⟨⟨0, 0⟩, ⟨1, 0⟩⟩ ⟨0, -1⟩ = Side.COINCIDENT ∧
    Line2.side ⟨⟨0, 0⟩, ⟨1, 0⟩⟩ ⟨5, 0⟩ = Side.RIGHT := by
  refine ⟨?_, ?_, ?_⟩ <;> norm_num [Line2.side]

/-- C2: any integral operand promotes the result to double unless the other
operand is long double, which wins; among floating kinds the wider kind wins —
float+float is float, a double operand gives double unless long double is
present, and any long double operand gives long double. -/
theorem promotion_integral_and_floating_rules :
    ∀ t u : ScalarKind,
      ((t.isIntegral = true ∨ u.isIntegral = true) →
        Promote t u =
          (if t = ScalarKind.longDouble ∨ u = ScalarKind.longDouble then
            ScalarKind.longDouble
          else ScalarKind.double)) ∧
      Promote ScalarKind.float ScalarKind.float = ScalarKind.float ∧
      ((t.isFloating = true ∧ u.isFloating = true ∧
          (t = ScalarKind.double ∨ u = ScalarKind.double) ∧
          t ≠ ScalarKind.longDouble ∧ u ≠ ScalarKind.longDouble) →
        Promote t u = ScalarKind.double) ∧
      ((t = ScalarKind.longDouble ∨ u = ScalarKind.longDouble) →
        Promote t u = ScalarKind.longDouble) := by
  decide

/-- Witness for C2: the promotion rules evaluated at int+int (giving double),
double+float (giving double) and long double+float (giving long double). -/
theorem promotion_integral_and_floating_rules_witness :
    Promote ScalarKind.int ScalarKind.int = ScalarKind.double ∧
    Promote ScalarKind.double ScalarKind.float = ScalarKind.double ∧
    Promote ScalarKind.longDouble ScalarKind.float = ScalarKind.longDouble := by
  refine ⟨?_, ?_, ?_⟩
  · have h := (promotion_integral_and_floating_rules ScalarKind.int
      ScalarKind.int).1 (Or.inl (by decide))
    simpa using h
  · exact (promotion_integral_and_floating_rules ScalarKind.double
      ScalarKind.float).2.2.1 (by decide)
  · exact (promotion_integral_and_floating_rules ScalarKind.longDouble
      ScalarKind.float).2.2.2 (Or.inl rfl)

/-- C3: the promotion rule is commutative in its two arguments. -/
theorem promotion_commutative :
    ∀ t u : ScalarKind, Promote t u = Promote u t := by
  decide

/-- C5 counterexample: dividing the vector (1,1) by the zero vector, or by
the zero scalar, does not trigger any assertion in the debug-build model —
the source's `operator/=` contains no check at all, contradicting the claim
that the division asserts in debug builds. -/
theorem div_by_zero_assertion_absent :
    (Vec2.divAssignVecDebug ⟨1, 1⟩ ⟨0, 0⟩).isSome = true ∧
    (Vec2.divAssignScalarDebug ⟨1, 1⟩ 0).isSome = true :=
  ⟨rfl, rfl⟩

/-- C5 (amended): vector division by a vector or scalar is unchecked in every
build — the debug semantics never asserts and always performs the plain
componentwise division, zero divisor or not. -/
theorem div_by_zero_unchecked :
    ∀ (v other : Vec2 ℚ) (scalar : ℚ),
      Vec2.divAssignVecDebug v other = some ⟨v.x / other.x, v.y / other.y⟩ ∧
      Vec2.divAssignScalarDebug v scalar =
        some ⟨v.x / scalar, v.y / scalar⟩ :=
  fun _ _ _ => ⟨rfl, rfl⟩

/-- C8: `Circle2::contains` is the closed comparison of squared distance
against squared radius; the circle of radius 5 about the origin contains
(3,4) on its boundary and does not contain (3,5). -/
theorem circle2_contains_closed_disc :
    ∀ (c : Circle2) (p : Vec2 ℚ),
      (c.contains p = true ↔
        (p.x - c.center.x) ^ 2 + (p.y - c.center.y) ^ 2 ≤ c.radius ^ 2) ∧
      Circle2.contains ⟨⟨0, 0⟩, 5⟩ ⟨3, 4⟩ = true ∧
      Circle2.contains ⟨⟨0, 0⟩, 5⟩ ⟨3, 5⟩ = false := by
  intro c p
  refine ⟨?_, ?_, ?_⟩
  · simp only [Circle2.contains, Vec2.distanceSquared, Vec2.sub,
      Vec2.magnitudeSquared, decide_eq_true_eq]
    have h₁ : (c.center.x - p.x) * (c.center.x - p.x) +
        (c.center.y - p.y) * (c.center.y - p.y) =
        (p.x - c.center.x) ^ 2 + (p.y - c.center.y) ^ 2 := by ring
    have h₂ : c.radius * c.radius = c.radius ^ 2 := by ring
    rw [h₁, h₂]
  · norm_num [Circle2.contains, Vec2.distanceSquared, Vec2.sub,
      Vec2.magnitudeSquared]
  · norm_num [Circle2.contains, Vec2.distanceSquared, Vec2.sub,
      Vec2.magnitudeSquared]

/-- C9: reseeding is deterministic — two engines seeded with the same value,
whatever their previous states, produce identical sequences of `next()`
outputs. -/
theorem random_seed_deterministic :
    ∀ (r₁ r₂ : MathRandom) (value count : Nat),
      MathRandom.nextOutputs count (r₁.seed value) =
        MathRandom.nextOutputs count (r₂.seed value) := by
  intro r₁ r₂ value count
  rfl

/-- C10: `at` with an index outside {0, 1} fails the assertion in the
debug-build model for both `Vec2` and `Line2`, while the release-build model
falls through to the first component (`x`, respectively endpoint `a`); in
every case the release-build `at` returns one of the actual components. -/
theorem at_index_out_of_range :
    ∀ (v : Vec2 ℚ) (l : Line2) (i : Int),
      (¬(i = 0 ∨ i = 1) →
        v.atDebug i = none ∧ v.atRelease i = v.x ∧
        l.atDebug i = none ∧ l.atRelease i = l.a) ∧
      (v.atRelease i = v.x ∨ v.atRelease i = v.y) ∧
      (l.atRelease i = l.a ∨ l.atRelease i = l.b) := by
  intro v l i
  by_cases h0 : i = 0
  · subst h0
    simp [Vec2.atDebug, Vec2.atRelease, Line2.atDebug, Line2.atRelease]
  · by_cases h1 : i = 1
    · subst h1
      simp [Vec2.atDebug, Vec2.atRelease, Line2.atDebug, Line2.atRelease]
    · simp [Vec2.atDebug, Vec2.atRelease, Line2.atDebug, Line2.atRelease,
        h0, h1]

/-- Witness for C10: index 2 is out of range, asserts in the debug model, and
yields the first component in the release model on a concrete vector and
line. -/
theorem at_index_out_of_range_witness :
    ¬((2 : Int) = 0 ∨ (2 : Int) = 1) ∧
    (Vec2.atDebug (⟨1, 2⟩ : Vec2 ℚ) 2 = none ∧
     Vec2.atRelease (⟨1, 2⟩ : Vec2 ℚ) 2 = (⟨1, 2⟩ : Vec2 ℚ).x ∧
     Line2.atDebug ⟨⟨0, 0⟩, ⟨3, 4⟩⟩ 2 = none ∧
     Line2.atRelease ⟨⟨0, 0⟩, ⟨3, 4⟩⟩ 2 = (⟨0, 0⟩ : Vec2 ℚ)) :=
  ⟨by decide,
   (at_index_out_of_range ⟨1, 2⟩ ⟨⟨0, 0⟩, ⟨3, 4⟩⟩ 2).1 (by decide)⟩

/-- C4: `Line2::intersect` reports no intersection when the denominator of
the 2x2 parametric system is zero or when a solved parameter leaves [0, 1],
and otherwise returns the point `a + (b - a) * s`; the segments (0,0)-(2,2)
and (0,2)-(2,0) intersect with found=true at (1,1). -/
theorem line2_intersect_correct :
    ∀ l other : Line2,
      (Line2.intersectDenominator l other = 0 →
        l.intersect other = (false, ⟨0, 0⟩)) ∧
      (Line2.intersectDenominator l other ≠ 0 →
        ¬(0 ≤ Line2.intersectParamS l other ∧
          Line2.intersectParamS l other ≤ 1 ∧
          0 ≤ Line2.intersectParamT l other ∧
          Line2.intersectParamT l other ≤ 1) →
        l.intersect other = (false, ⟨0, 0⟩)) ∧
      (Line2.intersectDenominator l other ≠ 0 →
        (0 ≤ Line2.intersectParamS l other ∧
         Line2.intersectParamS l other ≤ 1 ∧
         0 ≤ Line2.intersectParamT l other ∧
         Line2.intersectParamT l other ≤ 1) →
        l.intersect other =
          (true, l.a.add ((l.b.sub l.a).smul
            (Line2.intersectParamS l other)))) ∧
      Line2.intersect ⟨⟨0, 0⟩, ⟨2, 2⟩⟩ ⟨⟨0, 2⟩, ⟨2, 0⟩⟩ = (true, ⟨1, 1⟩) := by
  intro l other
  refine ⟨?_, ?_, ?_, ?_⟩
  · intro h
    unfold Line2.intersectDenominator at h
    simp [Line2.intersect, h]
  · intro hd hrange
    unfold Line2.intersectParamS Line2.intersectParamT
      Line2.intersectDenominator at hrange
    unfold Line2.intersectDenominator at hd
    simp only [Line2.intersect]
    split_ifs
    rfl
  · intro hd hrange
    unfold Line2.intersectParamS Line2.intersectParamT
      Line2.intersectDenominator at hrange
    unfold Line2.intersectDenominator at hd
    unfold Line2.intersectParamS Line2.intersectDenominator
    simp only [Line2.intersect]
    split_ifs
    rfl
  · norm_num [Line2.intersect, Vec2.add, Vec2.sub, Vec2.smul]

/-- Witness for C4: for the segments (0,0)-(2,2) and (0,2)-(2,0) the
denominator is nonzero, both parameters equal 1/2 and lie in [0, 1], and the
intersection is found at `a + (b - a) * s`. -/
theorem line2_intersect_correct_witness :
    Line2.intersectDenominator ⟨⟨0, 0⟩, ⟨2, 2⟩⟩ ⟨⟨0, 2⟩, ⟨2, 0⟩⟩ ≠ 0 ∧
    (0 ≤ Line2.intersectParamS ⟨⟨0, 0⟩, ⟨2, 2⟩⟩ ⟨⟨0, 2⟩, ⟨2, 0⟩⟩ ∧
     Line2.intersectParamS ⟨⟨0, 0⟩, ⟨2, 2⟩⟩ ⟨⟨0, 2⟩, ⟨2, 0⟩⟩ ≤ 1 ∧
     0 ≤ Line2.intersectParamT ⟨⟨0, 0⟩, ⟨2, 2⟩⟩ ⟨⟨0, 2⟩, ⟨2, 0⟩⟩ ∧
     Line2.intersectParamT ⟨⟨0, 0⟩, ⟨2, 2⟩⟩ ⟨⟨0, 2⟩, ⟨2, 0⟩⟩ ≤ 1) ∧
    Line2.intersect ⟨⟨0, 0⟩, ⟨2, 2⟩⟩ ⟨⟨0, 2⟩, ⟨2, 0⟩⟩ =
      (true, Vec2.add ⟨0, 0⟩ (Vec2.smul (Vec2.sub ⟨2, 2⟩ ⟨0, 0⟩)
        (Line2.intersectParamS ⟨⟨0, 0⟩, ⟨2, 2⟩⟩ ⟨⟨0, 2⟩, ⟨2, 0⟩⟩))) := by
  refine ⟨?_, ?_, ?_⟩
  · norm_num [Line2.intersectDenominator]
  · norm_num [Line2.intersectParamS, Line2.intersectParamT,
      Line2.intersectDenominator]
  · exact (line2_intersect_correct ⟨⟨0, 0⟩, ⟨2, 2⟩⟩ ⟨⟨0, 2⟩, ⟨2, 0⟩⟩).2.2.1
      (by norm_num [Line2.intersectDenominator])
      (by norm_num [Line2.intersectParamS, Line2.intersectParamT,
        Line2.intersectDenominator])

/-- C6: a nonzero vector normalizes to magnitude exactly 1 (the float
tolerance of the claim is the exact equality of the real-number model), and
normalizing the zero vector is a no-op that leaves the magnitude 0. -/
theorem normalized_magnitude_one :
    ∀ v : Vec2 ℝ,
      (v ≠ ⟨0, 0⟩ → v.normalized.magnitude = 1) ∧
      (v = ⟨0, 0⟩ → v.normalized = v ∧ v.normalized.magnitude = 0) := by
  intro v
  obtain ⟨x, y⟩ := v
  constructor
  · intro hv
    have hxy : x ≠ 0 ∨ y ≠ 0 := by
      by_contra hc
      push_neg at hc
      exact hv (by rw [hc.1, hc.2])
    have hsq : 0 < x * x + y * y := by
      rcases hxy with hx | hy
      · have := mul_self_pos.mpr hx
        have := mul_self_nonneg y
        linarith
      · have := mul_self_pos.mpr hy
        have := mul_self_nonneg x
        linarith
    have hmagsq : (Vec2.mk x y).magnitudeSquared = x * x + y * y := rfl
    have hm : 0 < (Vec2.mk x y).magnitude := by
      rw [Vec2.magnitude, hmagsq]
      exact Real.sqrt_pos.mpr hsq
    have hm0 : (Vec2.mk x y).magnitude ≠ 0 := ne_of_gt hm
    have hnorm : (Vec2.mk x y).normalized =
        (Vec2.mk x y).divScalar (Vec2.mk x y).magnitude := by
      rw [Vec2.normalized, Vec2.normalize]
      simp only [hm0, ne_eq, not_false_eq_true, if_true]
    rw [hnorm]
    set m := (Vec2.mk x y).magnitude with hmdef
    have hmsq : m * m = x * x + y * y := by
      rw [hmdef, Vec2.magnitude, hmagsq]
      exact Real.mul_self_sqrt (le_of_lt hsq)
    have hdiv : ((Vec2.mk x y).divScalar m).magnitudeSquared = 1 := by
      rw [Vec2.divScalar, Vec2.magnitudeSquared]
      simp only
      field_simp
      linarith [hmsq]
    rw [Vec2.magnitude, hdiv, Real.sqrt_one]
  · intro hv
    injection hv with hx hy
    subst hx
    subst hy
    have h0 : (Vec2.mk (0 : ℝ) 0).magnitude = 0 := by
      rw [Vec2.magnitude, Vec2.magnitudeSquared]
      norm_num
    have hn : (Vec2.mk (0 : ℝ) 0).normalized = Vec2.mk (0 : ℝ) 0 := by
      rw [Vec2.normalized, Vec2.normalize]
      simp [h0]
    exact ⟨hn, by rw [hn, h0]⟩

/-- Witness for C6: the vector (3, 4) is nonzero and its normalization has
magnitude 1. -/
theorem normalized_magnitude_one_witness :
    Vec2.mk (3 : ℝ) 4 ≠ ⟨0, 0⟩ ∧
    (Vec2.mk (3 : ℝ) 4).normalized.magnitude = 1 :=
  ⟨by norm_num [Vec2.mk.injEq],
   (normalized_magnitude_one ⟨3, 4⟩).1 (by norm_num [Vec2.mk.injEq])⟩

/-- Evaluation of `Rect::canonicalize` as a single record: each branch of the
source's two independent sign tests, written out fieldwise. -/
theorem Rect.canonicalize_eq (r : Rect) :
    r.canonicalize =
      ⟨if r.width < 0 then r.x + r.width else r.x,
       if r.height < 0 then r.y + r.height else r.y,
       if r.width < 0 then -r.width else r.width,
       if r.height < 0 then -r.height else r.height⟩ := by
  obtain ⟨x, y, w, h⟩ := r
  by_cases h1 : w < 0 <;> by_cases h2 : h < 0 <;>
    simp [Rect.canonicalize, h1, h2]

/-- C7: `Rect::canonicalize` is idempotent, and after one canonicalize the
width and height are nonnegative. -/
theorem rect_canonicalize_idempotent :
    ∀ r : Rect,
      r.canonicalize.canonicalize = r.canonicalize ∧
      0 ≤ r.canonicalize.width ∧ 0 ≤ r.canonicalize.height := by
  intro r
  obtain ⟨x, y, w, h⟩ := r
  by_cases h1 : w < 0 <;> by_cases h2 : h < 0
  · refine ⟨?_, ?_, ?_⟩ <;>
      simp [Rect.canonicalize_eq, h1, h2, lt_asymm h1, lt_asymm h2,
        Rect.mk.injEq] <;> linarith
  · refine ⟨?_, ?_, ?_⟩ <;>
      simp [Rect.canonicalize_eq, h1, h2, lt_asymm h1, Rect.mk.injEq] <;>
        linarith
  · refine ⟨?_, ?_, ?_⟩ <;>
      simp [Rect.canonicalize_eq, h1, h2, lt_asymm h2, Rect.mk.injEq] <;>
        linarith
  · refine ⟨?_, ?_, ?_⟩ <;>
      simp [Rect.canonicalize_eq, h1, h2, Rect.mk.injEq] <;> linarith
